import Mathlib

/-!
Shallow embedding of the email delivery lifecycle tracking subsystem
(supabase edge functions: send-email, track-email-open,
process-bounce-checks, process-email-replies, sync-email-bounces).

Timestamps are modelled as `Int` milliseconds since an arbitrary epoch
(the JavaScript code compares `Date.getTime()` differences divided by
1000 against thresholds in seconds; comparing the raw millisecond
difference against the threshold times 1000 is exact, since the
division is real-valued in JS).  Counter columns (`open_count`,
`unique_opens`, `reply_count`) are modelled as `Nat`: the code always
coalesces their nullable reads with `|| 0` and writes back
non-negative values.  Contact counters are modelled as `Int` so that
the source's `Math.max(0, x - k)` flooring is explicit.
-/

namespace EmailCore

/-! ## Data model (email_history, contacts, notifications, pending_bounce_checks, email_replies) -/

/-- Lifecycle status of an email_history row. -/
inductive EmailStatus where
  | sent
  | delivered
  | opened
  | bounced
  | replied
  deriving DecidableEq

/-- bounce_type column: text column holding hard, soft, or NULL (the NULL is the
surrounding `Option`). -/
inductive BounceType where
  | hard
  | soft
  deriving DecidableEq

/-- check_result column of pending_bounce_checks: ok, bounced, or NULL. -/
inductive CheckResult where
  | ok
  | bounced
  deriving DecidableEq

/-- One email_history row (the OutboundEmail record). -/
structure OutboundEmail where
  status : EmailStatus
  open_count : Nat
  unique_opens : Nat
  first_open_ip : Option String
  opened_at : Option Int
  sent_at : Int
  bounce_type : Option BounceType
  bounce_reason : Option String
  bounced_at : Option Int
  is_valid_open : Bool
  message_id : Option String
  reply_count : Nat
  replied_at : Option Int
  last_reply_at : Option Int
  sent_by : Option String
  contact_id : Option String
  lead_id : Option String
  account_id : Option String
  recipient_email : String
  recipient_name : Option String
  sender_email : String
  subject : String
  deriving DecidableEq

/-- The engagement counters of a contacts row read and written by the core. -/
structure Contact where
  email_opens : Int
  engagement_score : Int
  deriving DecidableEq

/-- A notifications row as inserted by the core (only the fields the core writes
that matter for identity/duplication). -/
structure Notification where
  user_id : String
  notification_type : String
  lead_id : Option String
  deriving DecidableEq

/-- One pending_bounce_checks row. -/
structure PendingCheck where
  email_history_id : String
  sender_email : String
  recipient_email : String
  check_after : Int
  checked : Bool
  check_result : Option CheckResult
  deriving DecidableEq

/-- One email_replies row (the columns used for deduplication/identity). -/
structure EmailReply where
  graph_message_id : String
  from_email : String
  received_at : Int
  deriving DecidableEq

/-! ## Generic string helpers (List Char level, so that kernel evaluation is cheap) -/

/-- Does `pat` occur at the start of `s`? -/
def startsWith : List Char → List Char → Bool
  | [], _ => true
  | _ :: _, [] => false
  | p :: ps, c :: cs => p == c && startsWith ps cs

/-- JavaScript `hay.includes(pat)` on character lists. -/
def charsContain (pat : List Char) : List Char → Bool
  | [] => startsWith pat []
  | c :: t => startsWith pat (c :: t) || charsContain pat t

/-- Lower-cased character list of a string (JS `toLowerCase`, ASCII range). -/
def lowerChars (s : String) : List Char :=
  s.data.map Char.toLower

/-! ## track-email-open -/

/-- The fixed 1x1 transparent GIF served by the tracking endpoint
(`TRACKING_PIXEL` in track-email-open/index.ts), byte by byte. -/
def TRACKING_PIXEL : List Nat :=
  [0x47, 0x49, 0x46, 0x38, 0x39, 0x61, 0x01, 0x00, 0x01, 0x00, 0x80, 0x00,
   0x00, 0xff, 0xff, 0xff, 0x00, 0x00, 0x00, 0x21, 0xf9, 0x04, 0x01, 0x00,
   0x00, 0x00, 0x00, 0x2c, 0x00, 0x00, 0x00, 0x00, 0x01, 0x00, 0x01, 0x00,
   0x00, 0x02, 0x02, 0x44, 0x01, 0x00, 0x3b]

/-- The no-cache headers served with the pixel (`PIXEL_HEADERS`). -/
def PIXEL_HEADERS : List (String × String) :=
  [("Content-Type", "image/gif"),
   ("Cache-Control", "no-store, no-cache, must-revalidate, proxy-revalidate"),
   ("Pragma", "no-cache"),
   ("Expires", "0")]

/-- An HTTP response as produced by the tracking endpoint. `new Response(body,
{ headers })` defaults to status 200. -/
structure HttpResponse where
  status : Nat
  headers : List (String × String)
  body : List Nat
  deriving DecidableEq

/-- The only response the tracking endpoint ever produces. -/
def pixelResponse : HttpResponse :=
  { status := 200, headers := PIXEL_HEADERS, body := TRACKING_PIXEL }

/-- `BOT_USER_AGENTS` from track-email-open/index.ts, in source order. -/
def BOT_USER_AGENTS : List String :=
  ["microsoft-exchange", "msexchange", "barracuda", "proofpoint", "mimecast",
   "fireeye", "googleimageproxy", "ymailproxy", "outlookproxy",
   "yahoo mail proxy", "appengine-google", "googlebot", "bingbot", "slurp",
   "duckduckbot", "baiduspider", "yandexbot", "facebookexternalhit",
   "twitterbot", "linkedinbot", "slackbot", "whatsapp", "telegrambot",
   "discordbot", "python-requests", "curl", "wget", "httpie", "postman",
   "insomnia", "apache-httpclient", "java/", "okhttp", "go-http-client",
   "libwww-perl", "ruby", "php/", "guzzle", "headlesschrome", "phantomjs",
   "selenium", "puppeteer", "playwright", "atp-", "forefront", "safelinks",
   "safe links", "protection.outlook", "defender", "safebrowsing",
   "emailsecurity", "mailscanner", "spamassassin", "spamhaus", "messagelabs",
   "websense", "symantec", "trend micro", "kaspersky", "sophos", "mcafee",
   "norton", "avast", "avg", "clam", "bitdefender", "f-secure", "panda",
   "comodo", "eset", "g data", "zonealarm", "webroot", "malwarebytes"]

/-- `isBotUserAgent`: a missing User-Agent counts as a bot; otherwise the
lower-cased UA is checked for any bot signature as a substring. -/
def isBotUserAgent (userAgent : Option String) : Bool :=
  match userAgent with
  | none => true
  | some ua => BOT_USER_AGENTS.any fun bot => charsContain bot.data (lowerChars ua)

/-- `MIN_OPEN_DELAY_SECONDS` (5s), expressed in milliseconds. -/
def MIN_OPEN_DELAY_MS : Int := 5 * 1000

/-- `DEDUP_WINDOW_SECONDS` (300s), expressed in milliseconds. -/
def DEDUP_WINDOW_MS : Int := 300 * 1000

/-- One tracking-pixel request, after URL/header extraction: `emailId` is the
`id` query parameter, `userAgent` the user-agent header, `clientIP` the result
of `getClientIP` (x-forwarded-for / x-real-ip / cf-connecting-ip / "unknown"),
`now` the server clock.  `fetchFails` / `updateFails` model the record store
returning an error on the email_history point read / update. -/
structure TrackRequest where
  emailId : Option String
  userAgent : Option String
  clientIP : String
  now : Int
  fetchFails : Bool
  updateFails : Bool
  deriving DecidableEq

/-- The slice of record-store state a tracking request can read or write: the
referenced email_history row (none = no row with that id), its linked contact
row, and the notifications table (as an append-only list). -/
structure TrackState where
  email : Option OutboundEmail
  contact : Option Contact
  notifications : List Notification
  deriving DecidableEq

/-- The "unique open" determination of the handler: first open ever, or a
different IP than `first_open_ip`, or (same IP) the recorded `opened_at` is
more than the dedup window in the past.  (`opened_at` is only ever written on
the first open, so "previous open" in the handler is the first open time.) -/
def uniqueOpenCond (req : TrackRequest) (e : OutboundEmail) : Bool :=
  if e.open_count == 0 then true
  else if e.first_open_ip != some req.clientIP then true
  else
    match e.opened_at with
    | some t => decide (req.now - t > DEDUP_WINDOW_MS)
    | none => false

/-- The email_history update object built for a qualifying open: always sets
status=opened, open_count+1, is_valid_open=true; on the first open also
opened_at/first_open_ip; if the open is unique, unique_opens+1. -/
def applyOpenUpdate (req : TrackRequest) (e : OutboundEmail) : OutboundEmail :=
  let isFirstOpen := e.open_count == 0
  let e1 := { e with status := EmailStatus.opened,
                     open_count := e.open_count + 1,
                     is_valid_open := true }
  let e2 := if isFirstOpen then
              { e1 with opened_at := some req.now,
                        first_open_ip := some req.clientIP }
            else e1
  if uniqueOpenCond req e then { e2 with unique_opens := e.unique_opens + 1 }
  else e2

/-- `Math.min(score + 5, 100)` / opens+1: the contact engagement credit applied
on the first valid open (track-email-open). -/
def creditContact (c : Contact) : Contact :=
  { email_opens := c.email_opens + 1,
    engagement_score := min (c.engagement_score + 5) 100 }

/-- The GET handler of track-email-open/index.ts as a state transformer.
Decision sequence mirrors the source: missing id; bot/scanner UA (flag the row
invalid, no counters); fetch error or no row; bounced row (no-op); open too
soon after send (flag invalid); otherwise a qualifying open with the
unique-open determination, plus (first open only) a notification to the
sender and the contact engagement credit.  Every branch serves the pixel. -/
def trackHandler (req : TrackRequest) (st : TrackState) : TrackState × HttpResponse :=
  match req.emailId with
  | none => (st, pixelResponse)
  | some _ =>
    if isBotUserAgent req.userAgent then
      (if req.updateFails then st
       else { st with email := st.email.map fun e => { e with is_valid_open := false } },
       pixelResponse)
    else if req.fetchFails then (st, pixelResponse)
    else
      match st.email with
      | none => (st, pixelResponse)
      | some e =>
        if e.bounce_type.isSome then (st, pixelResponse)
        else if req.now - e.sent_at < MIN_OPEN_DELAY_MS then
          (if req.updateFails then st
           else { st with email := some { e with is_valid_open := false } },
           pixelResponse)
        else
          let isFirstOpen := e.open_count == 0
          let emailAfter := if req.updateFails then e else applyOpenUpdate req e
          let notifs :=
            if isFirstOpen then
              match e.sent_by with
              | some uid =>
                  st.notifications ++
                    [{ user_id := uid, notification_type := "email_opened",
                       lead_id := e.lead_id }]
              | none => st.notifications
            else st.notifications
          let contactAfter :=
            if isFirstOpen && e.contact_id.isSome then st.contact.map creditContact
            else st.contact
          ({ email := some emailAfter, contact := contactAfter,
             notifications := notifs }, pixelResponse)

/-! ## process-bounce-checks (pending pass and general sweep) -/

/-- A parsed NDR candidate as produced by `fetchNDRsForSender` (only NDRs whose
recipient was successfully parsed are kept, so `recipientEmail` is present). -/
structure NDRInfo where
  recipientEmail : String
  reason : Option String
  receivedDateTime : Option Int
  deriving DecidableEq

/-- The email_history update written when the pending pass or the general sweep
of process-bounce-checks matches an NDR: status=bounced, bounce_type=hard, the
parsed reason (with the literal fallback), bounced_at from the NDR (falling
back to now), counters zeroed, opened_at cleared, is_valid_open=false. -/
def pbcBounceUpdate (e : OutboundEmail) (reason : Option String)
    (receivedDateTime : Option Int) (now : Int) : OutboundEmail :=
  { e with status := EmailStatus.bounced,
           bounce_type := some BounceType.hard,
           bounce_reason := some (reason.getD "Email delivery failed"),
           bounced_at := some (receivedDateTime.getD now),
           open_count := 0,
           unique_opens := 0,
           opened_at := none,
           is_valid_open := false }

/-- The email_history update written by sync-email-bounces on an NDR match;
identical to the pending-pass update except that the reason is stored as
parsed (possibly NULL, no fallback string). -/
def syncBounceUpdate (e : OutboundEmail) (reason : Option String)
    (receivedDateTime : Option Int) (now : Int) : OutboundEmail :=
  { e with status := EmailStatus.bounced,
           bounce_type := some BounceType.hard,
           bounce_reason := reason,
           bounced_at := some (receivedDateTime.getD now),
           open_count := 0,
           unique_opens := 0,
           opened_at := none,
           is_valid_open := false }

/-- `ndrs.find(ndr => ndr.recipientEmail?.toLowerCase() ===
check.recipient_email.toLowerCase())`. -/
def ndrMatchFor (recipient : String) (ndrs : List NDRInfo) : Option NDRInfo :=
  ndrs.find? fun ndr => lowerChars ndr.recipientEmail == lowerChars recipient

/-- The record-store slice touched when the pending pass processes one queued
check: the pending_bounce_checks row, its linked email_history row, the (never
read nor written) linked contact row, and the notifications table. -/
structure PendingState where
  check : PendingCheck
  email : OutboundEmail
  contact : Option Contact
  notifications : List Notification
  deriving DecidableEq

/-- One pending_bounce_checks row through one invocation of the pending pass of
process-bounce-checks: rows are selected with checked=false and check_after ≤
now; a row whose linked email is already bounced is marked checked (result ok)
without touching the mailbox; otherwise the sender's NDRs are matched by
case-insensitive recipient equality, and a match bounces the email, inserts an
email_bounced notification for the sending user, and marks the row
checked/bounced, while a non-match marks it checked/ok.  The contacts table is
never touched by this function. -/
def pendingStep (now : Int) (ndrs : List NDRInfo) (s : PendingState) : PendingState :=
  if s.check.checked == false && decide (s.check.check_after ≤ now) then
    if s.email.status == EmailStatus.bounced then
      { s with check := { s.check with checked := true, check_result := some CheckResult.ok } }
    else
      match ndrMatchFor s.check.recipient_email ndrs with
      | some ndr =>
        { s with
          check := { s.check with checked := true, check_result := some CheckResult.bounced },
          email := pbcBounceUpdate s.email ndr.reason ndr.receivedDateTime now,
          notifications := s.notifications ++
            (match s.email.sent_by with
             | some uid => [{ user_id := uid, notification_type := "email_bounced",
                              lead_id := none }]
             | none => []) }
      | none =>
        { s with check := { s.check with checked := true, check_result := some CheckResult.ok } }
  else s

/-- The row filter of the general sweep of process-bounce-checks:
`sent_at ≥ sinceDate` and `status ≠ bounced`. -/
def sweepSelects (since : Int) (e : OutboundEmail) : Bool :=
  decide (since ≤ e.sent_at) && !(e.status == EmailStatus.bounced)

/-- The email_history update of the general sweep is the same object the
pending pass writes. -/
def sweepBounceUpdate : OutboundEmail → Option String → Option Int → Int → OutboundEmail :=
  pbcBounceUpdate

/-! ## process-email-replies -/

/-- The sent-emails filter of process-email-replies: sent within the window,
message_id captured, not bounced. -/
def replySelects (since : Int) (e : OutboundEmail) : Bool :=
  decide (since ≤ e.sent_at) && e.message_id.isSome && !(e.status == EmailStatus.bounced)

/-- A reply candidate from the inbox, already matched to an OutboundEmail by
its reply-threading header. -/
structure ReplyInfo where
  graph_message_id : String
  from_email : String
  from_name : Option String
  received_at : Int
  deriving DecidableEq

/-- The record-store slice touched when one matched reply is processed: the
matched email_history row, its email_replies rows, and the notifications
table. -/
structure ReplyState where
  email : OutboundEmail
  replies : List EmailReply
  notifications : List Notification
  deriving DecidableEq

/-- Processing of one matched reply in process-email-replies.  `orig` is the
email_history row as fetched at the start of the invocation: the handler's
`currentReplyCount = originalEmail.reply_count || 0` and `isFirstReply` are
computed from that (stale within a batch) snapshot, not from the current row.
The dedup check, in contrast, is a fresh email_replies query per reply. -/
def replyBatchStep (orig : OutboundEmail) (st : ReplyState) (r : ReplyInfo) : ReplyState :=
  if st.replies.any fun x => x.graph_message_id == r.graph_message_id then st
  else
    { email := { st.email with
        reply_count := orig.reply_count + 1,
        last_reply_at := some r.received_at,
        status := EmailStatus.replied,
        replied_at := if orig.reply_count == 0 then some r.received_at
                      else st.email.replied_at },
      replies := st.replies ++
        [{ graph_message_id := r.graph_message_id, from_email := r.from_email,
           received_at := r.received_at }],
      notifications := st.notifications ++
        (match orig.sent_by with
         | some uid => [{ user_id := uid, notification_type := "email_replied",
                          lead_id := none }]
         | none => []) }

/-- One invocation's inner loop over the matched replies of a single
OutboundEmail, with the stale `orig` snapshot fixed at fetch time. -/
def processReplies (orig : OutboundEmail) (rs : List ReplyInfo) (st : ReplyState) : ReplyState :=
  rs.foldl (replyBatchStep orig) st

/-- Number of email_replies rows carrying a given provider (graph) message id. -/
def countRepliesWithId (l : List EmailReply) (m : String) : Nat :=
  (l.filter fun x => x.graph_message_id == m).length

/-! ## sync-email-bounces -/

/-- `Math.max(0, opens - 1)` / `Math.max(0, score - 10)`: the contact
engagement correction applied by sync-email-bounces when bouncing an email
that had counted opens. -/
def correctContact (c : Contact) : Contact :=
  { email_opens := max 0 (c.email_opens - 1),
    engagement_score := max 0 (c.engagement_score - 10) }

/-- The email_history filter sync-email-bounces applies per parsed NDR:
sender equality, case-insensitive recipient equality (`ilike` with no
wildcard), not already bounced, sent after the cutoff, and optionally a
case-insensitive substring match on the first 50 characters of the original
subject recovered from the NDR. -/
def syncSelects (sender recipient : String) (cutoff : Int)
    (originalSubject : Option String) (e : OutboundEmail) : Bool :=
  e.sender_email == sender &&
  lowerChars e.recipient_email == lowerChars recipient &&
  !(e.status == EmailStatus.bounced) &&
  decide (cutoff ≤ e.sent_at) &&
  (match originalSubject with
   | some s => charsContain (lowerChars (String.mk (s.data.take 50))) (lowerChars e.subject)
   | none => true)

/-- The record-store slice touched when sync-email-bounces processes one NDR
against one email_history row. -/
structure SyncState where
  email : OutboundEmail
  contact : Option Contact
  deriving DecidableEq

/-- One matched email_history row through the per-NDR loop of
sync-email-bounces: if the row passes the filter it is bounced, and when it
has a linked contact and a positive open_count the contact's engagement
counters are corrected (opens − 1, score − 10, floored at 0). -/
def syncMatchStep (sender recipient : String) (cutoff : Int)
    (originalSubject : Option String) (reason : Option String)
    (receivedDateTime : Option Int) (now : Int) (st : SyncState) : SyncState :=
  if syncSelects sender recipient cutoff originalSubject st.email then
    { email := syncBounceUpdate st.email reason receivedDateTime now,
      contact := if st.email.contact_id.isSome && decide (0 < st.email.open_count) then
                   st.contact.map correctContact
                 else st.contact }
  else st

/-! ## The Token Provider (getAccessToken) -/

/-- The Azure credential environment variables read by the core. -/
structure AzureEnv where
  email_tenant_id : Option String
  tenant_id : Option String
  email_client_id : Option String
  client_id : Option String
  email_client_secret : Option String
  client_secret : Option String
  deriving DecidableEq

/-- JavaScript falsiness of `Deno.env.get(...)`: unset, or the empty string. -/
def jsFalsy (v : Option String) : Bool :=
  match v with
  | none => true
  | some s => s == ""

/-- JavaScript `a || b` on environment reads. -/
def jsOr (a b : Option String) : Option String :=
  if jsFalsy a then b else a

/-- The client-credentials exchange request built once credentials resolve. -/
structure TokenRequest where
  url : String
  client_id : String
  client_secret : String
  scope : String
  grant_type : String
  deriving DecidableEq

/-- `getAccessToken` as duplicated in process-bounce-checks,
process-email-replies and sync-email-bounces: each credential is read from the
AZURE_EMAIL_* variable with the generic AZURE_* variable as `||` fallback, and
the function throws the configuration error iff any resolved credential is
still falsy; only otherwise is the token exchange performed. -/
def sharedGetAccessToken (env : AzureEnv) : Except String TokenRequest :=
  let tenantId := jsOr env.email_tenant_id env.tenant_id
  let clientId := jsOr env.email_client_id env.client_id
  let clientSecret := jsOr env.email_client_secret env.client_secret
  if jsFalsy tenantId || jsFalsy clientId || jsFalsy clientSecret then
    Except.error "Azure credentials not configured"
  else
    Except.ok
      { url := "https://login.microsoftonline.com/" ++ tenantId.getD "" ++ "/oauth2/v2.0/token",
        client_id := clientId.getD "",
        client_secret := clientSecret.getD "",
        scope := "https://graph.microsoft.com/.default",
        grant_type := "client_credentials" }

/-- `getAccessToken` in send-email/index.ts: reads only the AZURE_EMAIL_*
variables, with no generic fallback. -/
def sendEmailGetAccessToken (env : AzureEnv) : Except String TokenRequest :=
  let tenantId := env.email_tenant_id
  let clientId := env.email_client_id
  let clientSecret := env.email_client_secret
  if jsFalsy tenantId || jsFalsy clientId || jsFalsy clientSecret then
    Except.error
      "Azure email credentials not configured. Please set AZURE_EMAIL_TENANT_ID, AZURE_EMAIL_CLIENT_ID, and AZURE_EMAIL_CLIENT_SECRET."
  else
    Except.ok
      { url := "https://login.microsoftonline.com/" ++ tenantId.getD "" ++ "/oauth2/v2.0/token",
        client_id := clientId.getD "",
        client_secret := clientSecret.getD "",
        scope := "https://graph.microsoft.com/.default",
        grant_type := "client_credentials" }

/-- Is an `Except` result an error? -/
def isErr {ε α : Type} (x : Except ε α) : Bool :=
  match x with
  | Except.error _ => true
  | Except.ok _ => false

/-! ## A small backtracking regex engine

The recipient-extraction patterns of `parseNDRContent` use only character
classes, literals, alternation, greedy `*`/`+`/`?` over character classes,
one capture group and the word boundary `\b`.  The engine below enumerates
outcomes in exactly the JavaScript order (alternation left first, greedy
quantifiers longest first, search leftmost first) and takes the first
success, so it gives `String.prototype.match` semantics for these patterns. -/

/-- Regex syntax: epsilon, one character of a class, sequencing, alternation,
greedy Kleene star over a character class, a capture group, and `\b`. -/
inductive RE where
  | eps : RE
  | chr : (Char → Bool) → RE
  | seq : RE → RE → RE
  | alt : RE → RE → RE
  | starC : (Char → Bool) → RE
  | grp : RE → RE
  | wordB : RE

/-- `\w` (letters, digits, underscore). -/
def isWordChar (c : Char) : Bool :=
  c.isAlpha || c.isDigit || c == Char.ofNat 95

/-- JS `\s` (the whitespace characters that can occur in our inputs). -/
def isJsSpace (c : Char) : Bool :=
  c == ' ' || c == Char.ofNat 9 || c == Char.ofNat 10 || c == Char.ofNat 11 ||
  c == Char.ofNat 12 || c == Char.ofNat 13 || c == Char.ofNat 160

/-- All ways a greedy `p*` can consume a prefix, longest first.  Each outcome
is the remaining input together with the character just before it. -/
def starRun (p : Char → Bool) : List Char → Option Char → List (List Char × Option Char)
  | [], prev => [([], prev)]
  | c :: rest, prev =>
    if p c then starRun p rest (some c) ++ [(c :: rest, prev)]
    else [(c :: rest, prev)]

/-- All outcomes of matching `r` at the start of the input, in JS backtracking
priority order.  Each outcome is (remaining input, previous character, group-1
capture if the group participated). -/
def reRun : RE → List Char → Option Char → List (List Char × Option Char × Option (List Char))
  | RE.eps, s, prev => [(s, prev, none)]
  | RE.chr _, [], _ => []
  | RE.chr p, c :: rest, _ => if p c then [(rest, some c, none)] else []
  | RE.seq a b, s, prev =>
    (reRun a s prev).flatMap fun o =>
      (reRun b o.1 o.2.1).map fun o2 => (o2.1, o2.2.1, o.2.2 <|> o2.2.2)
  | RE.alt a b, s, prev => reRun a s prev ++ reRun b s prev
  | RE.starC p, s, prev => (starRun p s prev).map fun o => (o.1, o.2, none)
  | RE.grp a, s, prev =>
    (reRun a s prev).map fun o => (o.1, o.2.1, some (s.take (s.length - o.1.length)))
  | RE.wordB, s, prev =>
    let pw := match prev with
              | some c => isWordChar c
              | none => false
    let nw := match s with
              | c :: _ => isWordChar c
              | [] => false
    if pw != nw then [(s, prev, none)] else []

/-- Leftmost search: try a match at every start position, returning the group-1
capture of the first success (as JS `str.match(re)` with `match[1]`). -/
def reSearchAux (r : RE) : List Char → Option Char → Option (Option (List Char))
  | [], prev =>
    match reRun r [] prev with
    | o :: _ => some o.2.2
    | [] => none
  | c :: rest, prev =>
    match reRun r (c :: rest) prev with
    | o :: _ => some o.2.2
    | [] => reSearchAux r rest (some c)

/-- The group-1 capture of the leftmost match of `r` in `s` (none when there
is no match; all patterns below capture on every successful match). -/
def reCapture (r : RE) (s : List Char) : Option (List Char) :=
  match reSearchAux r s none with
  | some (some g) => some g
  | _ => none

/-- Sequence a list of regexes. -/
def reseq (l : List RE) : RE :=
  l.foldr RE.seq RE.eps

/-- Case-insensitive literal character (the `/i` flag). -/
def litCI (c : Char) : RE :=
  RE.chr fun x => x.toLower == c.toLower

/-- Case-insensitive literal string. -/
def strCI (s : String) : RE :=
  reseq (s.data.map litCI)

/-- Exact literal character. -/
def lit (c : Char) : RE :=
  RE.chr fun x => x == c

/-- Greedy `p?`. -/
def optC (p : Char → Bool) : RE :=
  RE.alt (RE.chr p) RE.eps

/-- Greedy `p+`. -/
def plusC (p : Char → Bool) : RE :=
  RE.seq (RE.chr p) (RE.starC p)

/-- `[a-zA-Z0-9._%+-]` (the local part class of the email pattern). -/
def isLocalChar (c : Char) : Bool :=
  c.isAlpha || c.isDigit || c == '.' || c == Char.ofNat 95 || c == '%' ||
  c == '+' || c == '-'

/-- `[a-zA-Z0-9.-]` (the domain class of the email pattern). -/
def isDomChar (c : Char) : Bool :=
  c.isAlpha || c.isDigit || c == '.' || c == '-'

/-- `[a-zA-Z]`. -/
def isAsciiLetter (c : Char) : Bool :=
  c.isAlpha

/-- `[a-zA-Z0-9._%+-]+@[a-zA-Z0-9.-]+\.[a-zA-Z]{2,}`, shared by all the
recipient patterns. -/
def emailRE : RE :=
  reseq [plusC isLocalChar, lit '@', plusC isDomChar, lit '.',
         RE.chr isAsciiLetter, plusC isAsciiLetter]

/-- `['']` (straight or curly apostrophe). -/
def aposRE : RE :=
  RE.chr fun c => c == Char.ofNat 39 || c == Char.ofNat 8217

/-- `<?`. -/
def bracketOpenRE : RE :=
  optC fun c => c == '<'

/-- `>?`. -/
def bracketCloseRE : RE :=
  optC fun c => c == '>'

/-- `\s+`. -/
def wsPlus : RE :=
  plusC isJsSpace

/-- `\s*`. -/
def wsStar : RE :=
  RE.starC isJsSpace

/-! ### HTML stripping and whitespace collapsing (process-bounce-checks only)

`const plainBody = body.replace(/<[^>]*>/g, ' ').replace(/\s+/g, ' ')`. -/

/-- Drop characters through the first `>` (the end of a `<[^>]*>` match);
none if there is no `>`, in which case the `<` does not start a match. -/
def dropThroughGt : List Char → Option (List Char)
  | [] => none
  | c :: rest => if c == '>' then some rest else dropThroughGt rest

/-- `body.replace(/<[^>]*>/g, ' ')`, fuelled so that it reduces by structural
recursion (the fuel only ever decreases while at least one character is
consumed, so `fuel = s.length` never runs out). -/
def stripTagsF : Nat → List Char → List Char
  | _, [] => []
  | 0, s => s
  | fuel + 1, c :: rest =>
    if c == '<' then
      match dropThroughGt rest with
      | some r => ' ' :: stripTagsF fuel r
      | none => c :: stripTagsF fuel rest
    else c :: stripTagsF fuel rest

/-- `body.replace(/<[^>]*>/g, ' ')`: every `<...>` run (up to the first `>`)
becomes one space; a `<` with no later `>` is kept verbatim. -/
def stripTags (s : List Char) : List Char :=
  stripTagsF s.length s

/-- `.replace(/\s+/g, ' ')`, fuelled like `stripTagsF`. -/
def collapseWsF : Nat → List Char → List Char
  | _, [] => []
  | 0, s => s
  | fuel + 1, c :: rest =>
    if isJsSpace c then ' ' :: collapseWsF fuel (rest.dropWhile isJsSpace)
    else c :: collapseWsF fuel rest

/-- `.replace(/\s+/g, ' ')`: collapse each maximal whitespace run to one
space. -/
def collapseWs (s : List Char) : List Char :=
  collapseWsF s.length s

/-! ### The recipient patterns of parseNDRContent in process-bounce-checks,
in source order. -/

/-- `/Your message to\s+<?(EMAIL)>?\s+couldn['']t be delivered/i` -/
def pbcPat1 : RE :=
  reseq [strCI "Your message to", wsPlus, bracketOpenRE, RE.grp emailRE,
         bracketCloseRE, wsPlus, strCI "couldn", aposRE, strCI "t be delivered"]

/-- `/message to\s+<?(EMAIL)>?\s+couldn['']t be delivered/i` -/
def pbcPat2 : RE :=
  reseq [strCI "message to", wsPlus, bracketOpenRE, RE.grp emailRE,
         bracketCloseRE, wsPlus, strCI "couldn", aposRE, strCI "t be delivered"]

/-- `/couldn['']t deliver to\s+<?(EMAIL)>?/i` -/
def pbcPat3 : RE :=
  reseq [strCI "couldn", aposRE, strCI "t deliver to", wsPlus, bracketOpenRE,
         RE.grp emailRE, bracketCloseRE]

/-- `/(?:To|Recipient|Address):\s*<?(EMAIL)>?/i` -/
def pbcPat4 : RE :=
  reseq [RE.alt (strCI "To") (RE.alt (strCI "Recipient") (strCI "Address")),
         lit ':', wsStar, bracketOpenRE, RE.grp emailRE, bracketCloseRE]

/-- `/delivery to\s+<?(EMAIL)>?\s+(?:failed|unsuccessful)/i` -/
def pbcPat5 : RE :=
  reseq [strCI "delivery to", wsPlus, bracketOpenRE, RE.grp emailRE,
         bracketCloseRE, wsPlus, RE.alt (strCI "failed") (strCI "unsuccessful")]

/-- `/<(EMAIL)>/` -/
def pbcPat6 : RE :=
  reseq [lit '<', RE.grp emailRE, lit '>']

/-- `/\b(EMAIL)\b/` -/
def pbcPat7 : RE :=
  reseq [RE.wordB, RE.grp emailRE, RE.wordB]

/-- `emailPatterns` of process-bounce-checks, in priority order. -/
def pbcEmailPatterns : List RE :=
  [pbcPat1, pbcPat2, pbcPat3, pbcPat4, pbcPat5, pbcPat6, pbcPat7]

/-- First pattern in the list with a match wins. -/
def firstCapture (pats : List RE) (s : List Char) : Option (List Char) :=
  match pats with
  | [] => none
  | p :: rest =>
    match reCapture p s with
    | some g => some g
    | none => firstCapture rest s

/-- The `recipientEmail` component of `parseNDRContent` in
process-bounce-checks/index.ts: strip HTML, collapse whitespace, try the
patterns in order, lower-case the first capture. -/
def pbcParseRecipient (body : String) : Option String :=
  let plainBody := collapseWs (stripTags body.data)
  (firstCapture pbcEmailPatterns plainBody).map fun g => String.mk (g.map Char.toLower)

/-! ### The recipient patterns of parseNDRContent in sync-email-bounces,
in source order (matched against the raw body, no HTML strip). -/

/-- `/(?:To|Recipient|Address):\s*<?(EMAIL)>?/i` -/
def syncPat1 : RE :=
  reseq [RE.alt (strCI "To") (RE.alt (strCI "Recipient") (strCI "Address")),
         lit ':', wsStar, bracketOpenRE, RE.grp emailRE, bracketCloseRE]

/-- `/couldn't be delivered to\s+<?(EMAIL)>?/i` (straight apostrophe only). -/
def syncPat2 : RE :=
  reseq [strCI "couldn", lit (Char.ofNat 39), strCI "t be delivered to", wsPlus,
         bracketOpenRE, RE.grp emailRE, bracketCloseRE]

/-- `.` (anything but a line terminator). -/
def dotChar (c : Char) : Bool :=
  !(c == Char.ofNat 10 || c == Char.ofNat 13 || c == Char.ofNat 8232 ||
    c == Char.ofNat 8233)

/-- `/delivery.*failed.*<?(EMAIL)>?/i` -/
def syncPat3 : RE :=
  reseq [strCI "delivery", RE.starC dotChar, strCI "failed", RE.starC dotChar,
         bracketOpenRE, RE.grp emailRE, bracketCloseRE]

/-- `/<(EMAIL)>/` -/
def syncPat4 : RE :=
  reseq [lit '<', RE.grp emailRE, lit '>']

/-- `emailPatterns` of sync-email-bounces, in priority order. -/
def syncEmailPatterns : List RE :=
  [syncPat1, syncPat2, syncPat3, syncPat4]

/-- The `recipientEmail` component of `parseNDRContent` in
sync-email-bounces/index.ts: the patterns run on the raw body. -/
def syncParseRecipient (body : String) : Option String :=
  (firstCapture syncEmailPatterns body.data).map fun g => String.mk (g.map Char.toLower)

/-! ## Invariants -/

/-- The counter invariant of the spec: `unique_opens ≤ open_count`, and a
bounced row (non-null bounce_type) has both counters zero and `opened_at`
cleared. -/
def CounterInv (e : OutboundEmail) : Prop :=
  e.unique_opens ≤ e.open_count ∧
  (e.bounce_type.isSome = true →
    e.open_count = 0 ∧ e.unique_opens = 0 ∧ e.opened_at = none)

instance (e : OutboundEmail) : Decidable (CounterInv e) := by
  unfold CounterInv
  infer_instance

/-- Lifted to the optional row returned by a point lookup. -/
def CounterInvOpt : Option OutboundEmail → Prop
  | none => True
  | some e => CounterInv e

instance (o : Option OutboundEmail) : Decidable (CounterInvOpt o) := by
  cases o <;> unfold CounterInvOpt <;> infer_instance

/-- The state every core bounce transition leaves a row in: status bounced,
bounce_type set, is_valid_open false. -/
def BouncedState (e : OutboundEmail) : Prop :=
  e.status = EmailStatus.bounced ∧ e.bounce_type.isSome = true ∧
  e.is_valid_open = false

instance (e : OutboundEmail) : Decidable (BouncedState e) := by
  unfold BouncedState
  infer_instance

/-! ## Concrete records used to instantiate the theorems -/

/-- A freshly sent email_history row (as created by send-email: status sent,
is_valid_open true, counters zero), sent at time 0. -/
def demoEmail : OutboundEmail :=
  { status := EmailStatus.sent, open_count := 0, unique_opens := 0,
    first_open_ip := none, opened_at := none, sent_at := 0,
    bounce_type := none, bounce_reason := none, bounced_at := none,
    is_valid_open := true, message_id := some "<msg-1@mail.example.com>",
    reply_count := 0, replied_at := none, last_reply_at := none,
    sent_by := some "user-1", contact_id := some "contact-1",
    lead_id := none, account_id := none,
    recipient_email := "jane@acme.com", recipient_name := some "Jane",
    sender_email := "sales@sender.example.com", subject := "Hello" }

/-- A row in the state every core bounce transition produces. -/
def demoBouncedEmail : OutboundEmail :=
  { demoEmail with status := EmailStatus.bounced,
                   bounce_type := some BounceType.hard,
                   bounce_reason := some "Email delivery failed",
                   bounced_at := some 60000,
                   is_valid_open := false }

/-- A browser pixel fetch from IP 1.1.1.1, ten seconds after send. -/
def demoReq1 : TrackRequest :=
  { emailId := some "E1", userAgent := some "Mozilla/5.0 (Windows NT 10.0)",
    clientIP := "1.1.1.1", now := 10000, fetchFails := false,
    updateFails := false }

/-- The same browser again at t0+60s. -/
def demoReq2 : TrackRequest :=
  { demoReq1 with now := 60000 }

/-- A different IP at t0+400s. -/
def demoReq3 : TrackRequest :=
  { demoReq1 with clientIP := "2.2.2.2", now := 400000 }

/-- A pixel fetch by a known scanner UA. -/
def demoBotReq : TrackRequest :=
  { demoReq1 with userAgent := some "googlebot/2.1" }

/-- A browser pixel fetch only two seconds after send. -/
def demoSoonReq : TrackRequest :=
  { demoReq1 with now := 2000 }

/-- The record-store slice before the first pixel fetch. -/
def demoTrackState : TrackState :=
  { email := some demoEmail,
    contact := some { email_opens := 0, engagement_score := 45 },
    notifications := [] }

/-- The state slices after each scenario fetch. -/
def demoSt1 : TrackState := (trackHandler demoReq1 demoTrackState).1

def demoSt2 : TrackState := (trackHandler demoReq2 demoSt1).1

def demoSt3 : TrackState := (trackHandler demoReq3 demoSt2).1

/-- The slice holding the bounced row. -/
def demoBouncedState : TrackState :=
  { email := some demoBouncedEmail, contact := none, notifications := [] }

/-- The queued check created 45s after the demo send. -/
def demoCheck : PendingCheck :=
  { email_history_id := "E1", sender_email := "sales@sender.example.com",
    recipient_email := "jane@acme.com", check_after := 45000,
    checked := false, check_result := none }

/-- The pending-pass slice for the demo row. -/
def demoPendingState : PendingState :=
  { check := demoCheck, email := demoEmail,
    contact := some { email_opens := 1, engagement_score := 50 },
    notifications := [] }

/-- A parsed NDR that names the demo recipient. -/
def demoNDR : NDRInfo :=
  { recipientEmail := "JANE@acme.com",
    reason := some "550 5.1.1 RESOLVER.ADR.RecipNotFound",
    receivedDateTime := some 50000 }

/-- An NDR body matching both the provider-specific phrase (with address
jane@acme.com) and a different fallback email-shaped/angle-bracketed address
later in the text. -/
def ndrDemoBody : String :=
  "Your message to jane@acme.com couldn\x27t be delivered. Please contact <postmaster@relay.example.org> for more information."

/-- The §8 scenario NDR body. -/
def ndrScenarioBody : String :=
  "Your message to jane@acme.com couldn\x27t be delivered. jane wasn\x27t found at acme.com"

/-- Two distinct inbox replies to the demo email, arriving in one poll. -/
def demoReply1 : ReplyInfo :=
  { graph_message_id := "graph-msg-A", from_email := "jane@acme.com",
    from_name := some "Jane", received_at := 100000 }

def demoReply2 : ReplyInfo :=
  { demoReply1 with graph_message_id := "graph-msg-B", received_at := 200000 }

/-- The reply-processing slice for the demo email before any reply. -/
def demoReplyState : ReplyState :=
  { email := demoEmail, replies := [], notifications := [] }

/-- The demo row after its first open was counted, with the contact credited. -/
def demoOpenedEmail : OutboundEmail :=
  { demoEmail with status := EmailStatus.opened, open_count := 3,
                   unique_opens := 2, opened_at := some 10000,
                   first_open_ip := some "1.1.1.1" }

/-- A pending-pass slice whose row has counted opens and a linked contact. -/
def demoOpenedPendingState : PendingState :=
  { demoPendingState with email := demoOpenedEmail }

/-- The demo row after exactly one counted open. -/
def demoOnceOpenedEmail : OutboundEmail :=
  { demoEmail with status := EmailStatus.opened, open_count := 1,
                   unique_opens := 1, opened_at := some 10000,
                   first_open_ip := some "1.1.1.1" }

/-- The sync-email-bounces slice for the opened demo row. -/
def demoSyncState : SyncState :=
  { email := demoOnceOpenedEmail,
    contact := some { email_opens := 1, engagement_score := 50 } }

/-- An environment where only the generic tenant variable is set, everything
else mail-specific. -/
def demoEnvFallback : AzureEnv :=
  { email_tenant_id := none, tenant_id := some "tenant-generic",
    email_client_id := some "client-mail", client_id := none,
    email_client_secret := some "secret-mail", client_secret := none }

/-- An environment with both variants of every credential set. -/
def demoEnvFull : AzureEnv :=
  { email_tenant_id := some "tenant-mail", tenant_id := some "tenant-generic",
    email_client_id := some "client-mail", client_id := some "client-generic",
    email_client_secret := some "secret-mail",
    client_secret := some "secret-generic" }

/-! ## Helper lemmas about the tracking handler -/

theorem applyOpenUpdate_fields (req : TrackRequest) (e : OutboundEmail) :
    (applyOpenUpdate req e).open_count = e.open_count + 1 ∧
    (applyOpenUpdate req e).unique_opens =
      (if uniqueOpenCond req e then e.unique_opens + 1 else e.unique_opens) ∧
    (applyOpenUpdate req e).status = EmailStatus.opened ∧
    (applyOpenUpdate req e).is_valid_open = true ∧
    (applyOpenUpdate req e).bounce_type = e.bounce_type ∧
    (applyOpenUpdate req e).opened_at =
      (if e.open_count == 0 then some req.now else e.opened_at) ∧
    (applyOpenUpdate req e).first_open_ip =
      (if e.open_count == 0 then some req.clientIP else e.first_open_ip) := by
  unfold applyOpenUpdate
  dsimp only
  split <;> split <;> simp

theorem trackHandler_missing_id (req : TrackRequest) (st : TrackState)
    (h : req.emailId = none) : trackHandler req st = (st, pixelResponse) := by
  unfold trackHandler
  rw [h]

theorem trackHandler_bot (req : TrackRequest) (st : TrackState) (i : String)
    (hid : req.emailId = some i) (hb : isBotUserAgent req.userAgent = true) :
    trackHandler req st =
      (if req.updateFails then st
       else { st with email := st.email.map fun e => { e with is_valid_open := false } },
       pixelResponse) := by
  unfold trackHandler
  rw [hid]
  simp [hb]

theorem trackHandler_fetch_fails (req : TrackRequest) (st : TrackState) (i : String)
    (hid : req.emailId = some i) (hb : isBotUserAgent req.userAgent = false)
    (hf : req.fetchFails = true) : trackHandler req st = (st, pixelResponse) := by
  unfold trackHandler
  rw [hid]
  simp [hb, hf]

theorem trackHandler_no_row (req : TrackRequest) (st : TrackState) (i : String)
    (hid : req.emailId = some i) (hb : isBotUserAgent req.userAgent = false)
    (hf : req.fetchFails = false) (he : st.email = none) :
    trackHandler req st = (st, pixelResponse) := by
  unfold trackHandler
  rw [hid]
  simp [hb, hf, he]

theorem trackHandler_bounced (req : TrackRequest) (st : TrackState) (i : String)
    (e : OutboundEmail) (hid : req.emailId = some i)
    (hb : isBotUserAgent req.userAgent = false) (hf : req.fetchFails = false)
    (he : st.email = some e) (hbt : e.bounce_type.isSome = true) :
    trackHandler req st = (st, pixelResponse) := by
  unfold trackHandler
  rw [hid]
  simp [hb, hf, he, hbt]

theorem trackHandler_too_soon (req : TrackRequest) (st : TrackState) (i : String)
    (e : OutboundEmail) (hid : req.emailId = some i)
    (hb : isBotUserAgent req.userAgent = false) (hf : req.fetchFails = false)
    (he : st.email = some e) (hbt : e.bounce_type = none)
    (ht : req.now - e.sent_at < MIN_OPEN_DELAY_MS) :
    trackHandler req st =
      (if req.updateFails then st
       else { st with email := some { e with is_valid_open := false } },
       pixelResponse) := by
  unfold trackHandler
  rw [hid]
  simp [hb, hf, he, hbt, ht]

theorem trackHandler_qualifying (req : TrackRequest) (st : TrackState) (i : String)
    (e : OutboundEmail) (hid : req.emailId = some i)
    (hb : isBotUserAgent req.userAgent = false) (hf : req.fetchFails = false)
    (he : st.email = some e) (hbt : e.bounce_type = none)
    (ht : ¬(req.now - e.sent_at < MIN_OPEN_DELAY_MS)) :
    trackHandler req st =
      ({ email := some (if req.updateFails then e else applyOpenUpdate req e),
         contact := if (e.open_count == 0) && e.contact_id.isSome then
                      st.contact.map creditContact
                    else st.contact,
         notifications :=
           if e.open_count == 0 then
             match e.sent_by with
             | some uid =>
                 st.notifications ++
                   [{ user_id := uid, notification_type := "email_opened",
                      lead_id := e.lead_id }]
             | none => st.notifications
           else st.notifications }, pixelResponse) := by
  unfold trackHandler
  rw [hid]
  simp [hb, hf, he, hbt, ht]

theorem set_invalid_open_id (e : OutboundEmail) (h : e.is_valid_open = false) :
    ({ e with is_valid_open := false } : OutboundEmail) = e := by
  cases e
  simp_all

theorem trackHandler_email_cases (req : TrackRequest) (st : TrackState) :
    (trackHandler req st).1.email = st.email ∨
    (trackHandler req st).1.email =
      st.email.map (fun e => { e with is_valid_open := false }) ∨
    (∃ e, st.email = some e ∧ e.bounce_type = none ∧
      (trackHandler req st).1.email = some (applyOpenUpdate req e)) := by
  rcases hid : req.emailId with _ | i
  · rw [trackHandler_missing_id req st hid]
    exact Or.inl rfl
  · by_cases hb : isBotUserAgent req.userAgent = true
    · rw [trackHandler_bot req st i hid hb]
      by_cases hu : req.updateFails = true
      · rw [if_pos hu]
        exact Or.inl rfl
      · rw [if_neg hu]
        exact Or.inr (Or.inl rfl)
    · have hb2 : isBotUserAgent req.userAgent = false := by simpa using hb
      by_cases hf : req.fetchFails = true
      · rw [trackHandler_fetch_fails req st i hid hb2 hf]
        exact Or.inl rfl
      · have hf2 : req.fetchFails = false := by simpa using hf
        rcases he : st.email with _ | e
        · rw [trackHandler_no_row req st i hid hb2 hf2 he]
          exact Or.inl he
        · by_cases hbt : e.bounce_type.isSome = true
          · rw [trackHandler_bounced req st i e hid hb2 hf2 he hbt]
            exact Or.inl he
          · have hbt2 : e.bounce_type = none := by
              cases hbtc : e.bounce_type with
              | none => rfl
              | some b => exact absurd (by simp [hbtc]) hbt
            by_cases ht : req.now - e.sent_at < MIN_OPEN_DELAY_MS
            · rw [trackHandler_too_soon req st i e hid hb2 hf2 he hbt2 ht]
              by_cases hu : req.updateFails = true
              · rw [if_pos hu]
                exact Or.inl he
              · rw [if_neg hu]
                exact Or.inr (Or.inl (by simp))
            · rw [trackHandler_qualifying req st i e hid hb2 hf2 he hbt2 ht]
              by_cases hu : req.updateFails = true
              · rw [if_pos hu]
                exact Or.inl rfl
              · rw [if_neg hu]
                exact Or.inr (Or.inr ⟨e, rfl, hbt2, rfl⟩)

/-- CounterInv is preserved by a qualifying open update (which the handler
only applies to rows with bounce_type null). -/
theorem applyOpenUpdate_counterInv (req : TrackRequest) (e : OutboundEmail)
    (h : CounterInv e) (hbt0 : e.bounce_type = none) :
    CounterInv (applyOpenUpdate req e) := by
  obtain ⟨h1, _⟩ := h
  obtain ⟨ho, hu, _, _, hbt, _, _⟩ := applyOpenUpdate_fields req e
  constructor
  · rw [ho, hu]
    split <;> omega
  · intro hs
    rw [hbt, hbt0] at hs
    simp at hs

/-! ## Helper lemmas about the reply and bounce passes -/

theorem replyBatchStep_skip (orig : OutboundEmail) (st : ReplyState) (r : ReplyInfo)
    (h : (st.replies.any fun x => x.graph_message_id == r.graph_message_id) = true) :
    replyBatchStep orig st r = st := by
  unfold replyBatchStep
  rw [if_pos h]

theorem replyBatchStep_new (orig : OutboundEmail) (st : ReplyState) (r : ReplyInfo)
    (h : (st.replies.any fun x => x.graph_message_id == r.graph_message_id) = false) :
    replyBatchStep orig st r =
      { email := { st.email with
          reply_count := orig.reply_count + 1,
          last_reply_at := some r.received_at,
          status := EmailStatus.replied,
          replied_at := if orig.reply_count == 0 then some r.received_at
                        else st.email.replied_at },
        replies := st.replies ++
          [{ graph_message_id := r.graph_message_id, from_email := r.from_email,
             received_at := r.received_at }],
        notifications := st.notifications ++
          (match orig.sent_by with
           | some uid => [{ user_id := uid, notification_type := "email_replied",
                            lead_id := none }]
           | none => []) } := by
  unfold replyBatchStep
  rw [if_neg (by simp [h])]

theorem countRepliesWithId_eq_zero_iff (l : List EmailReply) (m : String) :
    countRepliesWithId l m = 0 ↔
      (l.any fun x => x.graph_message_id == m) = false := by
  unfold countRepliesWithId
  induction l with
  | nil => simp
  | cons a t ih =>
    by_cases ha : (a.graph_message_id == m) = true
    · simp [List.filter_cons, ha]
    · simp [List.filter_cons, ha, ih]

theorem countRepliesWithId_append (l1 l2 : List EmailReply) (m : String) :
    countRepliesWithId (l1 ++ l2) m =
      countRepliesWithId l1 m + countRepliesWithId l2 m := by
  unfold countRepliesWithId
  simp [List.filter_append]

theorem pendingStep_checked (now : Int) (ndrs : List NDRInfo) (s : PendingState)
    (h : s.check.checked = true) : pendingStep now ndrs s = s := by
  unfold pendingStep
  rw [if_neg (by simp [h])]

theorem pendingStep_not_due (now : Int) (ndrs : List NDRInfo) (s : PendingState)
    (h : ¬((s.check.checked == false && decide (s.check.check_after ≤ now)) = true)) :
    pendingStep now ndrs s = s := by
  unfold pendingStep
  rw [if_neg h]

theorem pendingStep_result_checked (now : Int) (ndrs : List NDRInfo) (s : PendingState)
    (h : (s.check.checked == false && decide (s.check.check_after ≤ now)) = true) :
    (pendingStep now ndrs s).check.checked = true := by
  unfold pendingStep
  rw [if_pos h]
  split
  · rfl
  · split
    · rfl
    · rfl

theorem syncMatchStep_selected (sender recipient : String) (cutoff : Int)
    (osubj reason : Option String) (recv : Option Int) (now : Int) (st : SyncState)
    (h : syncSelects sender recipient cutoff osubj st.email = true) :
    syncMatchStep sender recipient cutoff osubj reason recv now st =
      { email := syncBounceUpdate st.email reason recv now,
        contact := if st.email.contact_id.isSome && decide (0 < st.email.open_count) then
                     st.contact.map correctContact
                   else st.contact } := by
  unfold syncMatchStep
  rw [if_pos h]

theorem syncMatchStep_not_selected (sender recipient : String) (cutoff : Int)
    (osubj reason : Option String) (recv : Option Int) (now : Int) (st : SyncState)
    (h : ¬(syncSelects sender recipient cutoff osubj st.email = true)) :
    syncMatchStep sender recipient cutoff osubj reason recv now st = st := by
  unfold syncMatchStep
  rw [if_neg h]

theorem syncSelects_bounced_false (sender recipient : String) (cutoff : Int)
    (osubj : Option String) (e : OutboundEmail)
    (h : e.status = EmailStatus.bounced) :
    syncSelects sender recipient cutoff osubj e = false := by
  unfold syncSelects
  simp [h]

/-! ## Claim theorems -/

/-- C8: For every GET request to the tracking-pixel endpoint — regardless of
missing identifier, bot classification, record not found, bounced record,
premature open, or database fetch/update failure — the response is HTTP 200
carrying the same fixed 43-byte transparent GIF with no-cache headers; no
error is ever surfaced to the requesting client. -/
theorem pixel_always_served :
    (∀ req st, (trackHandler req st).2 = pixelResponse) ∧
    pixelResponse.status = 200 ∧
    pixelResponse.body = TRACKING_PIXEL ∧
    TRACKING_PIXEL.length = 43 ∧
    pixelResponse.headers = PIXEL_HEADERS := by
  refine ⟨?_, rfl, rfl, by decide, rfl⟩
  intro req st
  unfold trackHandler
  (repeat' split) <;> rfl

/-- C1: For every OutboundEmail (email_history) row, unique_opens ≤ open_count,
and whenever bounce_type is non-null the row has open_count = 0,
unique_opens = 0 and opened_at null; the open-tracking handler, the bounce
updates of the pending pass and the general sweep (and of sync-email-bounces),
the pending-pass step as a whole, the sync match step, and the reply-recording
step all preserve this invariant. -/
theorem counter_invariant_preserved :
    (∀ req st, CounterInvOpt st.email → CounterInvOpt (trackHandler req st).1.email) ∧
    (∀ e reason recv now, CounterInv (pbcBounceUpdate e reason recv now)) ∧
    (∀ e reason recv now, CounterInv (syncBounceUpdate e reason recv now)) ∧
    (∀ now ndrs s, CounterInv s.email → CounterInv (pendingStep now ndrs s).email) ∧
    (∀ sender recipient cutoff osubj reason recv now st, CounterInv st.email →
        CounterInv (syncMatchStep sender recipient cutoff osubj reason recv now st).email) ∧
    (∀ orig st r, CounterInv st.email → CounterInv (replyBatchStep orig st r).email) := by
  refine ⟨?_, ?_, ?_, ?_, ?_, ?_⟩
  · intro req st h
    rcases trackHandler_email_cases req st with hc | hc | ⟨e, he, hbt, hc⟩
    · rwa [hc]
    · rw [hc]
      rcases hse : st.email with _ | e
      · exact trivial
      · rw [hse] at h
        exact h
    · rw [hc]
      rw [he] at h
      exact applyOpenUpdate_counterInv req e h hbt
  · intro e reason recv now
    exact ⟨Nat.le_refl 0, fun _ => ⟨rfl, rfl, rfl⟩⟩
  · intro e reason recv now
    exact ⟨Nat.le_refl 0, fun _ => ⟨rfl, rfl, rfl⟩⟩
  · intro now ndrs s h
    unfold pendingStep
    split
    · split
      · exact h
      · split
        · exact ⟨Nat.le_refl 0, fun _ => ⟨rfl, rfl, rfl⟩⟩
        · exact h
    · exact h
  · intro sender recipient cutoff osubj reason recv now st h
    unfold syncMatchStep
    split
    · exact ⟨Nat.le_refl 0, fun _ => ⟨rfl, rfl, rfl⟩⟩
    · exact h
  · intro orig st r h
    unfold replyBatchStep
    split
    · exact h
    · exact ⟨h.1, h.2⟩

/-- Witness for C1 at concrete inputs: a first pixel fetch on a fresh row and a
pending-pass step on the same row both yield rows satisfying the invariant. -/
theorem counter_invariant_preserved_witness :
    CounterInvOpt ((trackHandler demoReq1 demoTrackState).1.email) ∧
    CounterInv (pendingStep 60000 [] demoPendingState).email :=
  ⟨counter_invariant_preserved.1 demoReq1 demoTrackState (by decide),
   counter_invariant_preserved.2.2.2.1 60000 [] demoPendingState (by decide)⟩

/-- C10 (implicit): every automatic bounce transition of the reconciliation
services records bounce_type = hard (the data model also admits soft, but no
core operation ever writes it: the two bounce updates write hard, and every
other operation leaves bounce_type unchanged). -/
theorem bounce_type_always_hard :
    (∀ e reason recv now, (pbcBounceUpdate e reason recv now).bounce_type = some BounceType.hard) ∧
    (∀ e reason recv now, (syncBounceUpdate e reason recv now).bounce_type = some BounceType.hard) ∧
    (∀ now ndrs s, (pendingStep now ndrs s).email.bounce_type = s.email.bounce_type ∨
        (pendingStep now ndrs s).email.bounce_type = some BounceType.hard) ∧
    (∀ sender recipient cutoff osubj reason recv now st,
        (syncMatchStep sender recipient cutoff osubj reason recv now st).email.bounce_type =
          st.email.bounce_type ∨
        (syncMatchStep sender recipient cutoff osubj reason recv now st).email.bounce_type =
          some BounceType.hard) ∧
    (∀ req st, ((trackHandler req st).1.email).map OutboundEmail.bounce_type =
        st.email.map OutboundEmail.bounce_type) ∧
    (∀ orig st r, (replyBatchStep orig st r).email.bounce_type = st.email.bounce_type) := by
  refine ⟨fun _ _ _ _ => rfl, fun _ _ _ _ => rfl, ?_, ?_, ?_, ?_⟩
  · intro now ndrs s
    unfold pendingStep
    split
    · split
      · exact Or.inl rfl
      · split
        · exact Or.inr rfl
        · exact Or.inl rfl
    · exact Or.inl rfl
  · intro sender recipient cutoff osubj reason recv now st
    unfold syncMatchStep
    split
    · exact Or.inr rfl
    · exact Or.inl rfl
  · intro req st
    rcases trackHandler_email_cases req st with hc | hc | ⟨e, he, hc⟩
    · rw [hc]
    · rw [hc]
      cases st.email <;> rfl
    · rw [hc.2, he]
      simp only [Option.map]
      rw [(applyOpenUpdate_fields req e).2.2.2.2.1]
  · intro orig st r
    unfold replyBatchStep
    split
    · rfl
    · rfl

/-- C2: Bounced is sticky: every core bounce transition leaves the row with
status bounced, bounce_type set and is_valid_open false; once a row is in
that state a tracking-pixel fetch is a no-op on the store, the reply
reconciliation query never selects the row, the general sweep query never
selects it, the pending pass marks the check done without reprocessing the
row, and the sync match step leaves everything unchanged. -/
theorem bounced_state_sticky :
    (∀ e reason recv now, BouncedState (pbcBounceUpdate e reason recv now)) ∧
    (∀ e reason recv now, BouncedState (syncBounceUpdate e reason recv now)) ∧
    (∀ req st e, st.email = some e → BouncedState e → (trackHandler req st).1 = st) ∧
    (∀ since e, e.status = EmailStatus.bounced → replySelects since e = false) ∧
    (∀ since e, e.status = EmailStatus.bounced → sweepSelects since e = false) ∧
    (∀ now ndrs s, s.email.status = EmailStatus.bounced →
        (pendingStep now ndrs s).email = s.email ∧
        (pendingStep now ndrs s).contact = s.contact ∧
        (pendingStep now ndrs s).notifications = s.notifications) ∧
    (∀ sender recipient cutoff osubj reason recv now st,
        st.email.status = EmailStatus.bounced →
        syncMatchStep sender recipient cutoff osubj reason recv now st = st) := by
  refine ⟨fun _ _ _ _ => ⟨rfl, rfl, rfl⟩, fun _ _ _ _ => ⟨rfl, rfl, rfl⟩, ?_, ?_, ?_, ?_, ?_⟩
  · intro req st e he hbs
    obtain ⟨hstat, hbt, hivo⟩ := hbs
    rcases hid : req.emailId with _ | i
    · rw [trackHandler_missing_id req st hid]
    · by_cases hb : isBotUserAgent req.userAgent = true
      · rw [trackHandler_bot req st i hid hb]
        by_cases hu : req.updateFails = true
        · rw [if_pos hu]
        · rw [if_neg hu]
          rw [he]
          simp only [Option.map_some']
          rw [set_invalid_open_id e hivo, ← he]
      · have hb2 : isBotUserAgent req.userAgent = false := by simpa using hb
        by_cases hf : req.fetchFails = true
        · rw [trackHandler_fetch_fails req st i hid hb2 hf]
        · have hf2 : req.fetchFails = false := by simpa using hf
          rw [trackHandler_bounced req st i e hid hb2 hf2 he hbt]
  · intro since e h
    unfold replySelects
    simp [h]
  · intro since e h
    unfold sweepSelects
    simp [h]
  · intro now ndrs s h
    unfold pendingStep
    by_cases hc : (s.check.checked == false && decide (s.check.check_after ≤ now)) = true
    · rw [if_pos hc, if_pos (by simp [h])]
      exact ⟨rfl, rfl, rfl⟩
    · rw [if_neg hc]
      exact ⟨rfl, rfl, rfl⟩
  · intro sender recipient cutoff osubj reason recv now st h
    have hns : ¬(syncSelects sender recipient cutoff osubj st.email = true) := by
      unfold syncSelects
      simp [h]
    unfold syncMatchStep
    rw [if_neg hns]

theorem uniqueOpenCond_iff (req : TrackRequest) (e : OutboundEmail) :
    uniqueOpenCond req e = true ↔
      (e.open_count = 0 ∨ e.first_open_ip ≠ some req.clientIP ∨
       ∃ t, e.opened_at = some t ∧ req.now - t > DEDUP_WINDOW_MS) := by
  unfold uniqueOpenCond
  constructor
  · intro h
    split_ifs at h with h1 h2
    · left
      simpa using h1
    · right
      left
      intro hip
      rw [hip] at h2
      simp at h2
    · right
      right
      cases hoa : e.opened_at with
      | none => rw [hoa] at h; simp at h
      | some t =>
        rw [hoa] at h
        simp at h
        exact ⟨t, rfl, h⟩
  · intro h
    split_ifs with h1 h2
    · rfl
    · rfl
    · have hip : e.first_open_ip = some req.clientIP := by simpa using h2
      have hoc : e.open_count ≠ 0 := by simpa using h1
      rcases h with h | h | ⟨t, ht, hgt⟩
      · exact absurd h hoc
      · exact absurd hip h
      · rw [ht]
        simpa using hgt

/-- C4: a qualifying pixel fetch (id present, non-bot UA, record fetched, not
bounced, at least 5s after send, update write succeeds) increments open_count
by exactly 1, increments unique_opens by 1 iff this is the first open ever or
the IP differs from first_open_ip or the recorded opened_at (the stored
previous-open reference point) is more than 300s in the past, and on the
first-ever open records opened_at/first_open_ip and sets status opened; the
concrete scenario at t0+10s / t0+60s (same IP) / t0+400s (new IP) yields
(1,1,opened), (2,1) and (3,2). -/
theorem qualifying_open_behavior :
    (∀ req st e i, req.emailId = some i →
      isBotUserAgent req.userAgent = false →
      req.fetchFails = false → req.updateFails = false →
      st.email = some e → e.bounce_type = none →
      ¬(req.now - e.sent_at < MIN_OPEN_DELAY_MS) →
      (trackHandler req st).1.email = some (applyOpenUpdate req e) ∧
      (applyOpenUpdate req e).open_count = e.open_count + 1 ∧
      ((applyOpenUpdate req e).unique_opens = e.unique_opens + 1 ↔
        (e.open_count = 0 ∨ e.first_open_ip ≠ some req.clientIP ∨
         ∃ t, e.opened_at = some t ∧ req.now - t > DEDUP_WINDOW_MS)) ∧
      ((applyOpenUpdate req e).unique_opens = e.unique_opens + 1 ∨
        (applyOpenUpdate req e).unique_opens = e.unique_opens) ∧
      (e.open_count = 0 →
        (applyOpenUpdate req e).opened_at = some req.now ∧
        (applyOpenUpdate req e).first_open_ip = some req.clientIP ∧
        (applyOpenUpdate req e).status = EmailStatus.opened)) ∧
    (demoSt1.email.map fun e => (e.open_count, e.unique_opens, e.status)) =
      some (1, 1, EmailStatus.opened) ∧
    (demoSt2.email.map fun e => (e.open_count, e.unique_opens)) = some (2, 1) ∧
    (demoSt3.email.map fun e => (e.open_count, e.unique_opens)) = some (3, 2) := by
  refine ⟨?_, by decide, by decide, by decide⟩
  intro req st e i hid hb hf hu he hbt ht
  obtain ⟨ho, hun, hstat, _, _, hoa, hfi⟩ := applyOpenUpdate_fields req e
  refine ⟨?_, ho, ?_, ?_, ?_⟩
  · rw [trackHandler_qualifying req st i e hid hb hf he hbt ht]
    simp [hu]
  · rw [hun]
    by_cases hcond : uniqueOpenCond req e = true
    · rw [if_pos hcond]
      constructor
      · intro _
        exact (uniqueOpenCond_iff req e).mp hcond
      · intro _
        rfl
    · rw [if_neg hcond]
      constructor
      · intro hcontra
        omega
      · intro hP
        exact absurd ((uniqueOpenCond_iff req e).mpr hP) hcond
  · rw [hun]
    split
    · exact Or.inl rfl
    · exact Or.inr rfl
  · intro h0
    have h0b : (e.open_count == 0) = true := by simpa using h0
    rw [hoa, hfi, if_pos h0b, if_pos h0b]
    exact ⟨rfl, rfl, hstat⟩

/-- Witness for C4: the first scenario fetch applied to the fresh demo row. -/
theorem qualifying_open_behavior_witness :
    (trackHandler demoReq1 demoTrackState).1.email =
      some (applyOpenUpdate demoReq1 demoEmail) ∧
    (applyOpenUpdate demoReq1 demoEmail).open_count = demoEmail.open_count + 1 :=
  ⟨(qualifying_open_behavior.1 demoReq1 demoTrackState demoEmail "E1" rfl
      (by decide) rfl rfl rfl rfl (by decide)).1,
   (qualifying_open_behavior.1 demoReq1 demoTrackState demoEmail "E1" rfl
      (by decide) rfl rfl rfl rfl (by decide)).2.1⟩

/-- C5: a pixel request with a missing or bot-classified User-Agent (for
example googlebot/2.1), or one arriving less than 5s after the sent time,
never changes open_count or unique_opens, marks is_valid_open false on the
referenced record (when the write succeeds; a bounced record already carries
is_valid_open = false from its bounce transition), and still serves the
pixel. -/
theorem bot_and_premature_suppressed :
    (∀ req st i, req.emailId = some i → isBotUserAgent req.userAgent = true →
      (trackHandler req st).1.email.map OutboundEmail.open_count =
        st.email.map OutboundEmail.open_count ∧
      (trackHandler req st).1.email.map OutboundEmail.unique_opens =
        st.email.map OutboundEmail.unique_opens ∧
      (req.updateFails = false →
        (trackHandler req st).1.email.map OutboundEmail.is_valid_open =
          st.email.map fun _ => false) ∧
      (trackHandler req st).2 = pixelResponse) ∧
    isBotUserAgent (some "googlebot/2.1") = true ∧
    isBotUserAgent none = true ∧
    (∀ req st e i, req.emailId = some i → isBotUserAgent req.userAgent = false →
      req.fetchFails = false → st.email = some e →
      req.now - e.sent_at < MIN_OPEN_DELAY_MS →
      (trackHandler req st).1.email.map OutboundEmail.open_count =
        some e.open_count ∧
      (trackHandler req st).1.email.map OutboundEmail.unique_opens =
        some e.unique_opens ∧
      (req.updateFails = false →
        (e.bounce_type.isSome = true → e.is_valid_open = false) →
        (trackHandler req st).1.email.map OutboundEmail.is_valid_open =
          some false) ∧
      (trackHandler req st).2 = pixelResponse) := by
  refine ⟨?_, by decide, by decide, ?_⟩
  · intro req st i hid hb
    rw [trackHandler_bot req st i hid hb]
    by_cases hu : req.updateFails = true
    · rw [if_pos hu]
      refine ⟨rfl, rfl, ?_, rfl⟩
      intro hfu
      simp [hu] at hfu
    · rw [if_neg hu]
      refine ⟨?_, ?_, ?_, rfl⟩
      · cases st.email <;> rfl
      · cases st.email <;> rfl
      · intro _
        cases st.email <;> rfl
  · intro req st e i hid hb hf he ht
    by_cases hbt : e.bounce_type.isSome = true
    · rw [trackHandler_bounced req st i e hid hb hf he hbt]
      refine ⟨by rw [he]; rfl, by rw [he]; rfl, ?_, rfl⟩
      intro _ hsticky
      rw [he]
      simp [hsticky hbt]
    · have hbt2 : e.bounce_type = none := by
        cases hbtc : e.bounce_type with
        | none => rfl
        | some b => exact absurd (by simp [hbtc]) hbt
      rw [trackHandler_too_soon req st i e hid hb hf he hbt2 ht]
      by_cases hu : req.updateFails = true
      · rw [if_pos hu]
        refine ⟨by rw [he]; rfl, by rw [he]; rfl, ?_, rfl⟩
        intro hfu
        simp [hu] at hfu
      · rw [if_neg hu]
        refine ⟨rfl, rfl, ?_, rfl⟩
        intro _ _
        rfl

/-- Witness for C5: the googlebot fetch and the 2-second fetch on the fresh
demo row leave the counters at 0 and flag the row invalid. -/
theorem bot_and_premature_suppressed_witness :
    ((trackHandler demoBotReq demoTrackState).1.email.map OutboundEmail.open_count =
      demoTrackState.email.map OutboundEmail.open_count) ∧
    ((trackHandler demoSoonReq demoTrackState).1.email.map OutboundEmail.unique_opens =
      some demoEmail.unique_opens) :=
  ⟨(bot_and_premature_suppressed.1 demoBotReq demoTrackState "E1" rfl (by decide)).1,
   (bot_and_premature_suppressed.2.2.2 demoSoonReq demoTrackState demoEmail "E1" rfl
      (by decide) rfl rfl (by decide)).2.1⟩

/-- Witness for C2 at concrete inputs: a pending-pass bounce of the demo row
lands in the bounced state, a later pixel fetch on the bounced row changes
nothing, and the reply query rejects the bounced row. -/
theorem bounced_state_sticky_witness :
    BouncedState (pbcBounceUpdate demoEmail (some "550 5.1.1 user unknown") none 60000) ∧
    (trackHandler demoReq2 demoBouncedState).1 = demoBouncedState ∧
    replySelects 0 demoBouncedEmail = false :=
  ⟨bounced_state_sticky.1 demoEmail (some "550 5.1.1 user unknown") none 60000,
   bounced_state_sticky.2.2.1 demoReq2 demoBouncedState demoBouncedEmail (by decide) (by decide),
   bounced_state_sticky.2.2.2.1 0 demoBouncedEmail (by decide)⟩

set_option maxRecDepth 100000 in
/-- C3 counterexample: the claim speaks of the (single, shared) NDR Parser and
cites both copies, but the sync-email-bounces copy does not try the
provider-specific phrasings first: on a body containing both the
provider-specific phrase (address jane@acme.com) and a different
angle-bracketed fallback address, it returns the fallback address, not the
provider-specific one, while the process-bounce-checks copy returns the
provider-specific one. -/
theorem ndr_precedence_shared_claim_false :
    pbcParseRecipient ndrDemoBody = some "jane@acme.com" ∧
    syncParseRecipient ndrDemoBody = some "postmaster@relay.example.org" ∧
    syncParseRecipient ndrDemoBody ≠ some "jane@acme.com" := by
  refine ⟨by decide, by decide, by decide⟩

set_option maxRecDepth 100000 in
/-- C3 (amended): the process-bounce-checks copy of the NDR parser tries its
patterns in the stated priority order — its first, provider-specific pattern
wins whenever it matches, and on the demo body the provider-specific address
is returned over the fallback; the sync-email-bounces copy instead tries the
generic To:/Recipient:/Address: header pattern first (its first pattern wins
whenever it matches), lacks the provider-specific "Your message to X" and
bare-substring patterns, and on the demo body returns the angle-bracketed
fallback address. -/
theorem ndr_precedence_per_copy :
    (∀ body g, reCapture pbcPat1 (collapseWs (stripTags body.data)) = some g →
      pbcParseRecipient body = some (String.mk (g.map Char.toLower))) ∧
    pbcParseRecipient ndrDemoBody = some "jane@acme.com" ∧
    pbcParseRecipient ndrScenarioBody = some "jane@acme.com" ∧
    (∀ body g, reCapture syncPat1 body.data = some g →
      syncParseRecipient body = some (String.mk (g.map Char.toLower))) ∧
    syncParseRecipient ndrDemoBody = some "postmaster@relay.example.org" := by
  refine ⟨?_, by decide, by decide, ?_, by decide⟩
  · intro body g h
    unfold pbcParseRecipient pbcEmailPatterns firstCapture
    simp [h]
  · intro body g h
    unfold syncParseRecipient syncEmailPatterns firstCapture
    simp [h]

set_option maxRecDepth 100000 in
/-- Witness for C3 (amended): the provider-specific pattern matches the demo
body with capture jane@acme.com, so the parser returns it. -/
theorem ndr_precedence_per_copy_witness :
    pbcParseRecipient ndrDemoBody =
      some (String.mk ("jane@acme.com".data.map Char.toLower)) :=
  ndr_precedence_per_copy.1 ndrDemoBody "jane@acme.com".data (by decide)

/-- C6 counterexample: two distinct new replies to the same OutboundEmail in
one batch are both recorded as rows, but reply_count is computed from the
stale row fetched at batch start, so it ends at 1, not 2, and replied_at is
overwritten by the second reply; the claimed "reply_count is incremented by 1
on each newly recorded reply" is false. -/
theorem reply_count_stale_batch :
    (processReplies demoEmail [demoReply1, demoReply2] demoReplyState).replies.length = 2 ∧
    (processReplies demoEmail [demoReply1, demoReply2] demoReplyState).email.reply_count = 1 ∧
    (processReplies demoEmail [demoReply1, demoReply2] demoReplyState).email.reply_count ≠ 2 ∧
    (processReplies demoEmail [demoReply1, demoReply2] demoReplyState).email.replied_at =
      some 200000 := by
  refine ⟨by decide, by decide, by decide, by decide⟩

/-- C6 (amended): reply recording is idempotent on the provider message id
(processing the same id twice leaves exactly one EmailReply row, whatever
snapshots the two passes carry); a newly recorded reply sets reply_count to
the batch-start snapshot value + 1 (an increment of exactly one per batch),
sets last_reply_at to the reply time, sets status replied, inserts the row,
and sets replied_at iff the snapshot reply_count was 0; an already-recorded
id is skipped without any change. -/
theorem reply_recording_amended :
    (∀ orig orig2 r st, countRepliesWithId st.replies r.graph_message_id = 0 →
      countRepliesWithId (replyBatchStep orig2 (replyBatchStep orig st r) r).replies
        r.graph_message_id = 1) ∧
    (∀ orig st r,
      (st.replies.any fun x => x.graph_message_id == r.graph_message_id) = false →
      (replyBatchStep orig st r).email.reply_count = orig.reply_count + 1 ∧
      (replyBatchStep orig st r).email.last_reply_at = some r.received_at ∧
      (replyBatchStep orig st r).email.status = EmailStatus.replied ∧
      (replyBatchStep orig st r).email.replied_at =
        (if orig.reply_count = 0 then some r.received_at else st.email.replied_at) ∧
      (replyBatchStep orig st r).replies =
        st.replies ++ [{ graph_message_id := r.graph_message_id,
                         from_email := r.from_email,
                         received_at := r.received_at }]) ∧
    (∀ orig st r,
      (st.replies.any fun x => x.graph_message_id == r.graph_message_id) = true →
      replyBatchStep orig st r = st) := by
  refine ⟨?_, ?_, replyBatchStep_skip⟩
  · intro orig orig2 r st h
    have hany : (st.replies.any fun x => x.graph_message_id == r.graph_message_id) = false :=
      (countRepliesWithId_eq_zero_iff _ _).mp h
    rw [replyBatchStep_new orig st r hany]
    rw [replyBatchStep_skip orig2 _ r (by simp)]
    rw [countRepliesWithId_append, h]
    simp [countRepliesWithId, List.filter]
  · intro orig st r h
    rw [replyBatchStep_new orig st r h]
    refine ⟨rfl, rfl, rfl, ?_, rfl⟩
    by_cases h0 : orig.reply_count = 0
    · simp [h0]
    · simp [h0]

/-- Witness for C6 (amended): recording one fresh reply, then feeding the same
provider message id again, leaves exactly one row; the fresh recording sets
reply_count to 0 + 1. -/
theorem reply_recording_amended_witness :
    countRepliesWithId
      (replyBatchStep demoEmail (replyBatchStep demoEmail demoReplyState demoReply1)
        demoReply1).replies demoReply1.graph_message_id = 1 ∧
    (replyBatchStep demoEmail demoReplyState demoReply1).email.reply_count =
      demoEmail.reply_count + 1 :=
  ⟨reply_recording_amended.1 demoEmail demoEmail demoReply1 demoReplyState (by decide),
   (reply_recording_amended.2.1 demoEmail demoReplyState demoReply1 (by decide)).1⟩

/-- C7 counterexample: the engagement correction is not the reverse of the
first-open credit (credit is +5 capped at 100, correction is −10 floored at
0: a contact at 45 is credited to 50, then "corrected" to 40), and the
pending-pass bounce transition does not touch the linked contact at all even
when the bounced row had counted opens. -/
theorem bounce_side_effect_correction_mismatch :
    correctContact (creditContact { email_opens := 0, engagement_score := 45 }) ≠
      ({ email_opens := 0, engagement_score := 45 } : Contact) ∧
    (correctContact (creditContact { email_opens := 0, engagement_score := 45 })).engagement_score = 40 ∧
    (pendingStep 60000 [demoNDR] demoOpenedPendingState).email.status = EmailStatus.bounced ∧
    demoOpenedPendingState.email.open_count = 3 ∧
    (pendingStep 60000 [demoNDR] demoOpenedPendingState).contact =
      demoOpenedPendingState.contact := by
  refine ⟨by decide, by decide, by decide, by decide, by decide⟩

/-- C7 (amended): when sync-email-bounces bounces a matched row with a linked
contact and a positive open_count, it decrements the contact's email_opens by
1 and engagement_score by 10, both floored at 0 (an exact reversal of the +1
open credit but an over-correction of the +5 score credit); the pending-pass
transition performs no contact correction; and both the sync match step and
the pending-pass step are idempotent, so applying either twice neither
double-decrements the contact nor duplicates a notification. -/
theorem bounce_correction_amended :
    (∀ sender recipient cutoff osubj reason recv now st,
      syncSelects sender recipient cutoff osubj st.email = true →
      st.email.contact_id.isSome = true → 0 < st.email.open_count →
      (syncMatchStep sender recipient cutoff osubj reason recv now st).email =
        syncBounceUpdate st.email reason recv now ∧
      (syncMatchStep sender recipient cutoff osubj reason recv now st).contact =
        st.contact.map correctContact) ∧
    (∀ c : Contact, 0 ≤ c.email_opens →
      (correctContact (creditContact c)).email_opens = c.email_opens) ∧
    (∀ c : Contact, (correctContact c).engagement_score = max 0 (c.engagement_score - 10)) ∧
    (∀ sender recipient cutoff osubj reason recv now st,
      syncMatchStep sender recipient cutoff osubj reason recv now
          (syncMatchStep sender recipient cutoff osubj reason recv now st) =
        syncMatchStep sender recipient cutoff osubj reason recv now st) ∧
    (∀ now ndrs s, pendingStep now ndrs (pendingStep now ndrs s) =
        pendingStep now ndrs s) ∧
    (∀ now ndrs s, (pendingStep now ndrs s).contact = s.contact) := by
  refine ⟨?_, ?_, fun c => rfl, ?_, ?_, ?_⟩
  · intro sender recipient cutoff osubj reason recv now st hsel hcid hoc
    rw [syncMatchStep_selected sender recipient cutoff osubj reason recv now st hsel]
    refine ⟨rfl, ?_⟩
    rw [if_pos]
    simp [hcid, hoc]
  · intro c h
    unfold correctContact creditContact
    simp
    omega
  · intro sender recipient cutoff osubj reason recv now st
    by_cases hsel : syncSelects sender recipient cutoff osubj st.email = true
    · rw [syncMatchStep_selected sender recipient cutoff osubj reason recv now st hsel]
      refine syncMatchStep_not_selected sender recipient cutoff osubj reason recv now _ ?_
      show ¬(syncSelects sender recipient cutoff osubj
        (syncBounceUpdate st.email reason recv now) = true)
      rw [syncSelects_bounced_false sender recipient cutoff osubj
        (syncBounceUpdate st.email reason recv now) rfl]
      simp
    · rw [syncMatchStep_not_selected sender recipient cutoff osubj reason recv now st hsel]
      rw [syncMatchStep_not_selected sender recipient cutoff osubj reason recv now st hsel]
  · intro now ndrs s
    by_cases hc : (s.check.checked == false && decide (s.check.check_after ≤ now)) = true
    · exact pendingStep_checked now ndrs _ (pendingStep_result_checked now ndrs s hc)
    · rw [pendingStep_not_due now ndrs s hc, pendingStep_not_due now ndrs s hc]
  · intro now ndrs s
    unfold pendingStep
    split
    · split
      · rfl
      · split
        · rfl
        · rfl
    · rfl

/-- Witness for C7 (amended): bouncing the once-opened demo row through the
sync match corrects the contact by the −1/−10 formula, and the exact-reversal
equation holds for the demo contact. -/
theorem bounce_correction_amended_witness :
    (syncMatchStep "sales@sender.example.com" "jane@acme.com" 0 none
        (some "550 5.1.1 user unknown") (some 50000) 60000 demoSyncState).contact =
      demoSyncState.contact.map correctContact ∧
    (correctContact (creditContact { email_opens := 2, engagement_score := 80 })).email_opens = 2 :=
  ⟨(bounce_correction_amended.1 "sales@sender.example.com" "jane@acme.com" 0 none
      (some "550 5.1.1 user unknown") (some 50000) 60000 demoSyncState
      (by decide) (by decide) (by decide)).2,
   bounce_correction_amended.2.1 { email_opens := 2, engagement_score := 80 } (by decide)⟩

/-- C9 counterexample: the send-email copy of getAccessToken has no generic
fallback: in an environment where the mail-specific tenant id is absent but
the generic one is set (and the other mail-specific credentials are present),
the claim says the provider succeeds after fallback, but the send-email copy
fails with its configuration error, while the shared copy succeeds with the
generic tenant. -/
theorem send_email_token_no_fallback :
    isErr (sendEmailGetAccessToken demoEnvFallback) = true ∧
    sharedGetAccessToken demoEnvFallback =
      Except.ok
        { url := "https://login.microsoftonline.com/tenant-generic/oauth2/v2.0/token",
          client_id := "client-mail", client_secret := "secret-mail",
          scope := "https://graph.microsoft.com/.default",
          grant_type := "client_credentials" } := by
  refine ⟨rfl, rfl⟩

/-- C9 (amended): the getAccessToken shared by the reconciliation services
resolves each credential as mail-specific `||` generic (mail-specific wins
when non-falsy) and fails with the configuration error iff some resolved
credential is still falsy, only otherwise building the client-credentials
exchange from the resolved values; the send-email copy reads only the
mail-specific variables, with no generic fallback, and fails iff any of those
three is falsy. -/
theorem token_provider_per_copy :
    (∀ env, isErr (sharedGetAccessToken env) = true ↔
      (jsFalsy (jsOr env.email_tenant_id env.tenant_id) = true ∨
       jsFalsy (jsOr env.email_client_id env.client_id) = true ∨
       jsFalsy (jsOr env.email_client_secret env.client_secret) = true)) ∧
    (∀ env, isErr (sendEmailGetAccessToken env) = true ↔
      (jsFalsy env.email_tenant_id = true ∨ jsFalsy env.email_client_id = true ∨
       jsFalsy env.email_client_secret = true)) ∧
    (∀ a b, jsFalsy a = false → jsOr a b = a) ∧
    (∀ a b, jsFalsy a = true → jsOr a b = b) ∧
    (∀ env tr, sharedGetAccessToken env = Except.ok tr →
      tr.url = "https://login.microsoftonline.com/" ++
        (jsOr env.email_tenant_id env.tenant_id).getD "" ++ "/oauth2/v2.0/token" ∧
      tr.client_id = (jsOr env.email_client_id env.client_id).getD "" ∧
      tr.client_secret = (jsOr env.email_client_secret env.client_secret).getD "" ∧
      tr.scope = "https://graph.microsoft.com/.default" ∧
      tr.grant_type = "client_credentials") ∧
    (∀ env tr, sendEmailGetAccessToken env = Except.ok tr →
      tr.url = "https://login.microsoftonline.com/" ++
        env.email_tenant_id.getD "" ++ "/oauth2/v2.0/token" ∧
      tr.client_id = env.email_client_id.getD "" ∧
      tr.client_secret = env.email_client_secret.getD "") := by
  refine ⟨?_, ?_, ?_, ?_, ?_, ?_⟩
  · intro env
    unfold sharedGetAccessToken
    by_cases h1 : jsFalsy (jsOr env.email_tenant_id env.tenant_id) = true <;>
      by_cases h2 : jsFalsy (jsOr env.email_client_id env.client_id) = true <;>
        by_cases h3 : jsFalsy (jsOr env.email_client_secret env.client_secret) = true <;>
          simp [h1, h2, h3, isErr]
  · intro env
    unfold sendEmailGetAccessToken
    by_cases h1 : jsFalsy env.email_tenant_id = true <;>
      by_cases h2 : jsFalsy env.email_client_id = true <;>
        by_cases h3 : jsFalsy env.email_client_secret = true <;>
          simp [h1, h2, h3, isErr]
  · intro a b h
    unfold jsOr
    rw [if_neg (by simp [h])]
  · intro a b h
    unfold jsOr
    rw [if_pos h]
  · intro env tr h
    simp only [sharedGetAccessToken] at h
    split_ifs at h with hc
    injection h with h2
    subst h2
    exact ⟨rfl, rfl, rfl, rfl, rfl⟩
  · intro env tr h
    simp only [sendEmailGetAccessToken] at h
    split_ifs at h with hc
    injection h with h2
    subst h2
    exact ⟨rfl, rfl, rfl⟩

/-- Witness for C9 (amended): with both variants set, the mail-specific value
wins, and the fully configured environment yields an exchange request built
from the mail-specific credentials. -/
theorem token_provider_per_copy_witness :
    jsOr (some "tenant-mail") (some "tenant-generic") = some "tenant-mail" ∧
    ({ url := "https://login.microsoftonline.com/tenant-mail/oauth2/v2.0/token",
       client_id := "client-mail", client_secret := "secret-mail",
       scope := "https://graph.microsoft.com/.default",
       grant_type := "client_credentials" } : TokenRequest).client_id =
      (jsOr demoEnvFull.email_client_id demoEnvFull.client_id).getD "" :=
  ⟨token_provider_per_copy.2.2.1 (some "tenant-mail") (some "tenant-generic") (by decide),
   (token_provider_per_copy.2.2.2.2.1 demoEnvFull
      { url := "https://login.microsoftonline.com/tenant-mail/oauth2/v2.0/token",
        client_id := "client-mail", client_secret := "secret-mail",
        scope := "https://graph.microsoft.com/.default",
        grant_type := "client_credentials" } rfl).2.1⟩

end EmailCore
